import Mathlib

/-!
Shallow embedding of the offline-first synchronization engine of the
fastest-note-app repository, covering:

* the durable operation log and its record types (frontend services/offline.ts,
  embedded from src/unnamed/part_005);
* the sync queue service: queueOperation, processPendingOperations,
  processOperation, executeOperation, handleConflict, retryOperation,
  cancelOperation (SyncQueueService, src/unnamed/part_006);
* the optimistic content store: addNote/updateNote/removeNote, the
  optimistic-operation list, updateNoteOptimistic, deleteNoteOptimistic,
  resolveConflict (useContentStore, src/frontend/src/components/Sync/ConflictResolver.tsx);
* the API client request shapes (src/frontend/src/services/api.ts);
* the WebSocket reconciliation handlers handleNoteUpdate / handleFolderUpdate
  (WebSocketService, src/unnamed/part_007).

Asynchronous network calls are embedded by passing the call's outcome as an
explicit parameter; timer-driven effects (setTimeout) are represented as
explicit fields of the result (the delay that was scheduled) or as separate
"settled" functions applying the delayed mutation.
-/

/-! ## JavaScript Record helpers

`Record<string, T>` objects are embedded as association lists keyed by String.
`recordSet` is `obj[k] = v` (overwrite in place if present, else append),
`recordRemove` is `delete obj[k]`, `recordGet` is `obj[k]`. -/

/-- JS `obj[k] = v`: overwrite the entry in place when the key exists,
otherwise append a new entry. -/
def recordSet {α : Type} (m : List (String × α)) (k : String) (v : α) :
    List (String × α) :=
  if m.any (fun p => p.1 = k) then
    m.map (fun p => if p.1 = k then (k, v) else p)
  else m ++ [(k, v)]

/-- JS `delete obj[k]`. -/
def recordRemove {α : Type} (m : List (String × α)) (k : String) :
    List (String × α) :=
  m.filter (fun p => decide (p.1 ≠ k))

/-- JS `obj[k]` (first entry wins; `recordSet` keeps keys unique). -/
def recordGet {α : Type} (m : List (String × α)) (k : String) : Option α :=
  match m with
  | [] => none
  | p :: rest => if p.1 = k then some p.2 else recordGet rest k

/-! ## Data model (services/offline.ts, types/note.ts, types/folder.ts) -/

/-- `OfflineOperation.type` / `OptimisticOperation.type`:
one of create / update / delete / move. -/
inductive OpKind where
  | create
  | update
  | delete
  | move
deriving DecidableEq, Repr

/-- `entityType`: note or folder. -/
inductive EntityKind where
  | note
  | folder
deriving DecidableEq, Repr

/-- `Note` (types/note.ts). `created_at` / `updated_at` are ISO strings. -/
structure Note where
  id : String
  title : String
  content : String
  folder_id : Option String
  user_id : String
  version : Nat
  created_at : String
  updated_at : String
deriving DecidableEq, Repr

/-- `Folder` (types/folder.ts). -/
structure Folder where
  id : String
  name : String
  parent_id : Option String
  path : String
  user_id : String
  created_at : String
  updated_at : String
deriving DecidableEq, Repr

/-- The untyped `data: any` payload of an offline operation, with the keys the
sync service reads from it. A key the caller did not set is `none`; for the
`folder_id` / `parent_id` keys, `some none` embeds JS `null` and
`some (some s)` a string value, while `none` embeds an absent key. -/
structure OpData where
  title : Option String := none
  content : Option String := none
  folder_id : Option (Option String) := none
  name : Option String := none
  parent_id : Option (Option String) := none
  version : Option Nat := none
deriving DecidableEq, Repr

/-- `OfflineOperation.status` (services/offline.ts): the complete set of
statuses an operation in the durable log can carry. -/
inductive OpStatus where
  | pending
  | syncing
  | synced
  | failed
deriving DecidableEq, Repr

/-- `OfflineOperation` (services/offline.ts): a record of the durable
operation log. -/
structure OfflineOperation where
  id : String
  type : OpKind
  entityType : EntityKind
  entityId : String
  data : OpData
  timestamp : Nat
  userId : String
  status : OpStatus
  retryCount : Nat
  lastError : Option String := none
deriving DecidableEq, Repr

/-! ## Sync queue configuration (SyncQueueService constructor) -/

/-- `SyncQueueOptions`: every field optional. -/
structure SyncQueueOptions where
  maxRetries : Option Nat := none
  retryDelayMs : Option Nat := none
  maxConcurrentSync : Option Nat := none
  syncIntervalMs : Option Nat := none
deriving DecidableEq, Repr

/-- The resolved configuration the constructor stores in private fields. -/
structure SyncQueueConfig where
  maxRetries : Nat
  retryDelayMs : Nat
  maxConcurrentSync : Nat
  syncIntervalMs : Nat
deriving DecidableEq, Repr

/-- JS `x || d` on an optional number: `0` is falsy, so both an absent option
and an explicit `0` fall back to the default. -/
def orDefault (x : Option Nat) (d : Nat) : Nat :=
  match x with
  | some (n + 1) => n + 1
  | _ => d

/-- The `SyncQueueService` constructor: `options.maxRetries || 3`,
`options.retryDelayMs || 5000`, `options.maxConcurrentSync || 3`,
`options.syncIntervalMs || 30000`. -/
def mkSyncQueueConfig (options : SyncQueueOptions) : SyncQueueConfig :=
  { maxRetries := orDefault options.maxRetries 3
    retryDelayMs := orDefault options.retryDelayMs 5000
    maxConcurrentSync := orDefault options.maxConcurrentSync 3
    syncIntervalMs := orDefault options.syncIntervalMs 30000 }

/-- The configuration of the exported `syncQueue` singleton,
built with no options. -/
def defaultSyncConfig : SyncQueueConfig := mkSyncQueueConfig {}

/-! ## queueOperation (SyncQueueService.queueOperation) -/

/-- The caller-supplied part of an operation:
`Omit<OfflineOperation, 'id' | 'timestamp' | 'status' | 'retryCount'>`. -/
structure QueueOperationInput where
  type : OpKind
  entityType : EntityKind
  entityId : String
  data : OpData
  userId : String
  lastError : Option String := none
deriving DecidableEq, Repr

/-- The generated operation id:
`op_${Date.now()}_${Math.random().toString(36).substr(2, 9)}`.
`now` is the millisecond clock, `nonce` the random base-36 string. -/
def freshOpId (now : Nat) (nonce : String) : String :=
  "op_" ++ toString now ++ "_" ++ nonce

/-- `queueOperation`: spread the caller's fields, then overwrite `id`,
`timestamp`, `status: 'pending'` and `retryCount: 0`. The resulting record is
what `offlineStorage.saveOperation` persists. -/
def queueOperation (operation : QueueOperationInput) (now : Nat)
    (nonce : String) : OfflineOperation :=
  { id := freshOpId now nonce
    type := operation.type
    entityType := operation.entityType
    entityId := operation.entityId
    data := operation.data
    timestamp := now
    userId := operation.userId
    status := OpStatus.pending
    retryCount := 0
    lastError := operation.lastError }

/-! ## Conflict handling and per-operation processing
(SyncQueueService.handleConflict / executeOperation / processOperation) -/

/-- One element of `SyncResult.conflicts`. -/
structure SyncConflict where
  operationId : String
  localData : OpData
  remoteData : OpData
  field : String
deriving DecidableEq, Repr

/-- `SyncResult` as produced by executeOperation / handleConflict. -/
structure SyncResult where
  success : Bool
  error : Option String := none
  conflicts : List SyncConflict := []
deriving DecidableEq, Repr

/-- Outcome of a remote API call: either the authoritative value, or an
`ApiError` with its HTTP status, attached response data and message. -/
inductive ApiOutcome (α : Type) where
  | ok (value : α)
  | err (status : Nat) (data : OpData) (message : String)
deriving DecidableEq, Repr

/-- `handleConflict(operation, conflictData)`: builds the single-element
conflicts array (referencing the operation id, with the operation's local
payload and the attached remote payload), emits it, and returns a failed
`SyncResult` with error "Conflict detected". -/
def handleConflict (operation : OfflineOperation) (conflictData : OpData) :
    SyncResult :=
  { success := false
    error := some "Conflict detected"
    conflicts := [{ operationId := operation.id
                    localData := operation.data
                    remoteData := conflictData
                    field := "content" }] }

/-- `executeOperation`, abstracted over the remote call's outcome: a
successful call yields a successful `SyncResult`; a rejection with HTTP 409
is routed to `handleConflict`; any other rejection is rethrown
(`Except.error`). -/
def executeOperationResult (operation : OfflineOperation)
    (outcome : ApiOutcome OpData) : Except String SyncResult :=
  match outcome with
  | ApiOutcome.ok _ => Except.ok { success := true }
  | ApiOutcome.err status data message =>
    if status = 409 then Except.ok (handleConflict operation data)
    else Except.error message

/-- Everything `processOperation` does to the operation and the scheduler:
the status and retry count written back by `offlineStorage.updateOperation`,
the delay of the `setTimeout` that re-runs `processPendingOperations`
(`none` when no retry was scheduled), the conflicts emitted on the way, and
whether the 60s deferred `deleteOperation` was scheduled (success path). -/
structure ProcessOutcome where
  newStatus : OpStatus
  newRetryCount : Nat
  retryScheduledAfterMs : Option Nat
  raisedConflicts : List SyncConflict
  deleteScheduled : Bool
deriving DecidableEq, Repr

/-- `processOperation`: on success mark the operation `synced` and schedule
its deletion; otherwise (a thrown error, or a returned failure such as a 409
conflict, which is re-thrown as `new Error(result.error)`) increment the
retry count, set status `failed` when the new count reaches `maxRetries`
else `pending`, and in the `pending` case schedule a retry drain after
`retryDelayMs * newRetryCount`. -/
def processOperation (cfg : SyncQueueConfig) (operation : OfflineOperation)
    (outcome : ApiOutcome OpData) : ProcessOutcome :=
  let failurePath : List SyncConflict → ProcessOutcome := fun conflicts =>
    let newRetryCount := operation.retryCount + 1
    let status : OpStatus :=
      if cfg.maxRetries ≤ newRetryCount then OpStatus.failed
      else OpStatus.pending
    { newStatus := status
      newRetryCount := newRetryCount
      retryScheduledAfterMs :=
        if status = OpStatus.pending then
          some (cfg.retryDelayMs * newRetryCount)
        else none
      raisedConflicts := conflicts
      deleteScheduled := false }
  match executeOperationResult operation outcome with
  | Except.ok result =>
    if result.success then
      { newStatus := OpStatus.synced
        newRetryCount := operation.retryCount
        retryScheduledAfterMs := none
        raisedConflicts := result.conflicts
        deleteScheduled := true }
    else failurePath result.conflicts
  | Except.error _ => failurePath []

/-! ## Draining the queue (SyncQueueService.processPendingOperations) -/

/-- The comparator `(a, b) => a.timestamp - b.timestamp` (ascending). -/
def opLE (a b : OfflineOperation) : Bool :=
  decide (a.timestamp ≤ b.timestamp)

/-- `[...pendingOps, ...failedOps].sort((a, b) => a.timestamp - b.timestamp)`. -/
def sortOps (l : List OfflineOperation) : List OfflineOperation :=
  l.mergeSort opLE

/-- The dispatch loop body: `break` once `activeSyncCount` reaches
`maxConcurrentSync`, `continue` past operations whose `retryCount` has
reached `maxRetries`, otherwise dispatch (incrementing the in-flight
count). Returns the operations handed to `processOperation` in this pass,
in order. -/
def selectForDispatch (cfg : SyncQueueConfig) (active : Nat) :
    List OfflineOperation → List OfflineOperation
  | [] => []
  | op :: rest =>
    if cfg.maxConcurrentSync ≤ active then []
    else if cfg.maxRetries ≤ op.retryCount then
      selectForDispatch cfg active rest
    else op :: selectForDispatch cfg (active + 1) rest

/-- `processPendingOperations`: returns immediately when offline or when a
drain is already running; otherwise sorts pending ∪ failed oldest-first and
dispatches under the concurrency bound. The result is the list of operations
dispatched (made in-flight) by this pass. -/
def processPendingOperations (cfg : SyncQueueConfig)
    (isOnline isSyncing : Bool) (activeSyncCount : Nat)
    (pendingOps failedOps : List OfflineOperation) : List OfflineOperation :=
  if !isOnline || isSyncing then []
  else selectForDispatch cfg activeSyncCount (sortOps (pendingOps ++ failedOps))

/-- The two events that change `activeSyncCount`: a dispatch (guarded by
`activeSyncCount < maxConcurrentSync`, from the break in the drain loop and
the guard in `queueOperation`) and a completion (the `.finally` decrement). -/
inductive SyncEvent where
  | dispatch
  | complete
deriving DecidableEq, Repr

/-- One `activeSyncCount` transition. -/
def stepActive (cfg : SyncQueueConfig) (active : Nat) : SyncEvent → Nat
  | SyncEvent.dispatch =>
    if active < cfg.maxConcurrentSync then active + 1 else active
  | SyncEvent.complete => active - 1

/-- `activeSyncCount` after a sequence of dispatch/complete events. -/
def runActive (cfg : SyncQueueConfig) (active : Nat)
    (events : List SyncEvent) : Nat :=
  events.foldl (stepActive cfg) active

/-! ## Manual retry and cancel (SyncQueueService.retryOperation /
cancelOperation) and the durable log -/

/-- The patch `retryOperation` writes:
`{ status: 'pending', retryCount: 0, lastError: undefined }`. -/
def retryOperationPatch (op : OfflineOperation) : OfflineOperation :=
  { op with status := OpStatus.pending, retryCount := 0, lastError := none }

/-- `offlineStorage.deleteOperation`: remove the operation with the given id
from the durable log. -/
def deleteOperation (log : List OfflineOperation) (opId : String) :
    List OfflineOperation :=
  log.filter (fun op => decide (op.id ≠ opId))

/-! ## Optimistic content store (useContentStore) -/

/-- `OptimisticOperation.status` (contentStore): the complete set of statuses
an optimistic operation can carry. -/
inductive OptStatus where
  | pending
  | success
  | error
deriving DecidableEq, Repr

/-- The `any`-typed `originalData` / `newData` of an optimistic operation:
a full note or folder snapshot. -/
inductive OptEntityData where
  | noteData (n : Note)
  | folderData (f : Folder)
deriving DecidableEq, Repr

/-- `OptimisticOperation` (contentStore). -/
structure OptimisticOp where
  id : String
  type : OpKind
  entityType : EntityKind
  entityId : String
  timestamp : Nat
  originalData : Option OptEntityData := none
  newData : Option OptEntityData := none
  status : OptStatus
  error : Option String := none
deriving DecidableEq, Repr

/-- The content store state: `notes` and `folders` Records, the current
selections, and the optimistic operation list. -/
structure ContentState where
  notes : List (String × Note)
  folders : List (String × Folder)
  selectedNoteId : Option String := none
  selectedFolderId : Option String := none
  optimisticOps : List OptimisticOp := []
deriving DecidableEq, Repr

/-- `addNote`: `state.notes[note.id] = note`. -/
def addNote (st : ContentState) (note : Note) : ContentState :=
  { st with notes := recordSet st.notes note.id note }

/-- `updateNote(id, updates)`: `Object.assign(state.notes[id], updates)` when
the entry exists, otherwise no change. Every call site in the claims passes a
complete `Note`, so the assign replaces the stored value. -/
def updateNote (st : ContentState) (id : String) (n : Note) : ContentState :=
  if (recordGet st.notes id).isSome then
    { st with notes := recordSet st.notes id n }
  else st

/-- `removeNote`: delete the entry and clear the selection when it pointed at
the removed note. -/
def removeNote (st : ContentState) (id : String) : ContentState :=
  { st with
    notes := recordRemove st.notes id
    selectedNoteId :=
      if st.selectedNoteId = some id then none else st.selectedNoteId }

/-- `addFolder`. -/
def addFolder (st : ContentState) (folder : Folder) : ContentState :=
  { st with folders := recordSet st.folders folder.id folder }

/-- `updateFolder`, same only-if-present semantics as `updateNote`. -/
def updateFolder (st : ContentState) (id : String) (f : Folder) :
    ContentState :=
  if (recordGet st.folders id).isSome then
    { st with folders := recordSet st.folders id f }
  else st

/-- `removeFolder`. -/
def removeFolder (st : ContentState) (id : String) : ContentState :=
  { st with
    folders := recordRemove st.folders id
    selectedFolderId :=
      if st.selectedFolderId = some id then none else st.selectedFolderId }

/-- `addOptimisticOp`: push `{...op, timestamp: Date.now()}`. -/
def addOptimisticOp (st : ContentState) (op : OptimisticOp) (now : Nat) :
    ContentState :=
  { st with optimisticOps := st.optimisticOps ++ [{ op with timestamp := now }] }

/-- `updateOptimisticOp(id, { status })`. -/
def setOptimisticOpStatus (st : ContentState) (opId : String)
    (s : OptStatus) : ContentState :=
  { st with
    optimisticOps := st.optimisticOps.map
      (fun o => if o.id = opId then { o with status := s } else o) }

/-- `updateOptimisticOp(id, { status: 'error', error: msg })`. -/
def setOptimisticOpError (st : ContentState) (opId : String) (msg : String) :
    ContentState :=
  { st with
    optimisticOps := st.optimisticOps.map
      (fun o =>
        if o.id = opId then
          { o with status := OptStatus.error, error := some msg }
        else o) }

/-- `removeOptimisticOp`. -/
def removeOptimisticOp (st : ContentState) (opId : String) : ContentState :=
  { st with
    optimisticOps := st.optimisticOps.filter (fun o => decide (o.id ≠ opId)) }

/-- `UpdateNoteRequest` (types/note.ts). -/
structure UpdateNoteRequest where
  title : Option String := none
  content : Option String := none
  folder_id : Option (Option String) := none
  version : Nat
deriving DecidableEq, Repr

/-- The optimistic value `{...currentNote, ...data, updated_at: now,
version: data.version}`: a key absent from the request leaves the current
field unchanged. -/
def mergeNoteUpdate (n : Note) (d : UpdateNoteRequest) (nowIso : String) :
    Note :=
  { n with
    title := d.title.getD n.title
    content := d.content.getD n.content
    folder_id := d.folder_id.getD n.folder_id
    updated_at := nowIso
    version := d.version }

/-- `updateNoteOptimistic(id, data)`, abstracted over the API call's outcome.
Returns the store state after the call settles together with the value the
promise resolves or rejects with. The 1s/5s `removeOptimisticOp` timers are
not folded in here. Flow: look up the current note (reject if absent),
apply the optimistic merge, record a pending optimistic op; then on API
success replace the note with the server's note and mark the op success, and
on any API error roll the note back to the snapshot, mark the op error, and
rethrow. -/
def updateNoteOptimistic (st : ContentState) (id : String)
    (d : UpdateNoteRequest) (opId : String) (now : Nat) (nowIso : String)
    (outcome : ApiOutcome Note) : ContentState × Except String Note :=
  match recordGet st.notes id with
  | none => (st, Except.error "Note not found")
  | some currentNote =>
    let optimisticNote := mergeNoteUpdate currentNote d nowIso
    let st1 := updateNote st id optimisticNote
    let st2 := addOptimisticOp st1
      { id := opId
        type := OpKind.update
        entityType := EntityKind.note
        entityId := id
        timestamp := 0
        originalData := some (OptEntityData.noteData currentNote)
        newData := some (OptEntityData.noteData optimisticNote)
        status := OptStatus.pending } now
    match outcome with
    | ApiOutcome.ok updatedNote =>
      (setOptimisticOpStatus (updateNote st2 id updatedNote) opId
        OptStatus.success,
       Except.ok updatedNote)
    | ApiOutcome.err _ _ msg =>
      (setOptimisticOpError (updateNote st2 id currentNote) opId msg,
       Except.error msg)

/-- `deleteNoteOptimistic(id)`, abstracted over the API call's outcome.
Flow: look up the current note (reject if absent), remove it from the
projection, record a pending optimistic op; on API success mark the op
success, on any API error re-add the snapshot, mark the op error and
rethrow. -/
def deleteNoteOptimistic (st : ContentState) (id : String) (opId : String)
    (now : Nat) (outcome : ApiOutcome Unit) :
    ContentState × Except String Unit :=
  match recordGet st.notes id with
  | none => (st, Except.error "Note not found")
  | some currentNote =>
    let st1 := removeNote st id
    let st2 := addOptimisticOp st1
      { id := opId
        type := OpKind.delete
        entityType := EntityKind.note
        entityId := id
        timestamp := 0
        originalData := some (OptEntityData.noteData currentNote)
        status := OptStatus.pending } now
    match outcome with
    | ApiOutcome.ok _ =>
      (setOptimisticOpStatus st2 opId OptStatus.success, Except.ok ())
    | ApiOutcome.err _ _ msg =>
      (setOptimisticOpError (addNote st2 currentNote) opId msg,
       Except.error msg)

/-! ## Conflict resolution (useContentStore.resolveConflict,
SyncQueueService.cancelOperation) -/

/-- The `resolution` argument: `'accept' | 'reject'`. -/
inductive ConflictChoice where
  | accept
  | reject
deriving DecidableEq, Repr

/-- `resolveConflict(opId, resolution)` before its 1s timer fires: find the
optimistic op; on accept mark it success; on reject, when `originalData` is
present, write it back through `updateNote` / `updateFolder` according to
`entityType`, then mark the op error ("Rejected by user"). The store's data
is always a snapshot of the matching entity kind; a mismatched payload (never
produced by the program) is ignored. -/
def resolveConflict (st : ContentState) (opId : String)
    (resolution : ConflictChoice) : ContentState :=
  match st.optimisticOps.find? (fun o => decide (o.id = opId)) with
  | none => st
  | some op =>
    match resolution with
    | ConflictChoice.accept => setOptimisticOpStatus st opId OptStatus.success
    | ConflictChoice.reject =>
      let st1 :=
        match op.originalData with
        | some d =>
          if op.entityType = EntityKind.note then
            match d with
            | OptEntityData.noteData n => updateNote st op.entityId n
            | OptEntityData.folderData _ => st
          else
            match d with
            | OptEntityData.folderData f => updateFolder st op.entityId f
            | OptEntityData.noteData _ => st
        | none => st
      setOptimisticOpError st1 opId "Rejected by user"

/-- `resolveConflict` after its 1s `removeOptimisticOp` timer has fired. -/
def resolveConflictSettled (st : ContentState) (opId : String)
    (resolution : ConflictChoice) : ContentState :=
  removeOptimisticOp (resolveConflict st opId resolution) opId

/-- `SyncQueueService.cancelOperation(operationId)`: when the operation is a
note/folder create, remove the provisional entity from the projection and
from offline storage; in every case delete the operation from the durable
log. Returns (new log, new projection, new offline note store, new offline
folder store). -/
def cancelOperation (log : List OfflineOperation) (st : ContentState)
    (storageNotes : List (String × Note))
    (storageFolders : List (String × Folder)) (opId : String) :
    List OfflineOperation × ContentState ×
      List (String × Note) × List (String × Folder) :=
  let cleaned :
      ContentState × List (String × Note) × List (String × Folder) :=
    match log.find? (fun op => decide (op.id = opId)) with
    | some op =>
      if op.type = OpKind.create ∧ op.entityType = EntityKind.note then
        (removeNote st op.entityId, recordRemove storageNotes op.entityId,
         storageFolders)
      else if op.type = OpKind.create ∧ op.entityType = EntityKind.folder then
        (removeFolder st op.entityId, storageNotes,
         recordRemove storageFolders op.entityId)
      else (st, storageNotes, storageFolders)
    | none => (st, storageNotes, storageFolders)
  (deleteOperation log opId, cleaned.1, cleaned.2.1, cleaned.2.2)

/-! ## Confirming a queued create
(SyncQueueService.executeNoteOperation, case 'create', success path) -/

/-- After `api.notes.create` succeeds for a queued create targeting the
provisional id `tempId`: `contentStore.removeNote(entityId)`,
`contentStore.addNote(createdNote)`, `offlineStorage.deleteNote(entityId)`,
`offlineStorage.saveNote(createdNote)` (IndexedDB put keyed by `id`). -/
def confirmCreateNote (st : ContentState)
    (storageNotes : List (String × Note)) (tempId : String)
    (createdNote : Note) : ContentState × List (String × Note) :=
  (addNote (removeNote st tempId) createdNote,
   recordSet (recordRemove storageNotes tempId) createdNote.id createdNote)

/-! ## API client request shapes (services/api.ts) -/

/-- `CreateNoteRequest` (types/note.ts): `folder_id` optional
(`none` = key absent, `some none` = null). -/
structure CreateNoteRequest where
  title : String
  content : String
  folder_id : Option (Option String) := none
deriving DecidableEq, Repr

/-- The shape of an HTTP request issued by `ApiClient.request`: method, path,
the names of the headers attached, and the top-level keys of the JSON body. -/
structure HttpRequest where
  method : String
  path : String
  headerNames : List String
  bodyFields : List String
deriving DecidableEq, Repr

/-- Headers built by `ApiClient.request`: always `Content-Type`, plus
`Authorization` when an access token is held. -/
def requestHeaderNames (hasToken : Bool) : List String :=
  if hasToken then ["Content-Type", "Authorization"] else ["Content-Type"]

/-- The body keys of `JSON.stringify(data)` for a `CreateNoteRequest`
(`JSON.stringify` drops an absent key). -/
def createNoteBodyFields (d : CreateNoteRequest) : List String :=
  ["title", "content"] ++
    (match d.folder_id with
     | none => []
     | some _ => ["folder_id"])

/-- `api.notes.create(data)`: `POST /notes` with `JSON.stringify(data)` as the
body and the default headers. -/
def notesCreateRequest (hasToken : Bool) (d : CreateNoteRequest) :
    HttpRequest :=
  { method := "POST"
    path := "/notes"
    headerNames := requestHeaderNames hasToken
    bodyFields := createNoteBodyFields d }

/-- Whether a request carries a client-generated idempotency key, under any of
the conventional header or body spellings. -/
def hasIdempotencyKey (r : HttpRequest) : Bool :=
  r.headerNames.any (fun h =>
      h == "Idempotency-Key" || h == "X-Idempotency-Key" ||
      h == "idempotency-key") ||
  r.bodyFields.any (fun f =>
      f == "idempotency_key" || f == "idempotencyKey" ||
      f == "idempotency-key" || f == "client_token" || f == "request_id")

/-! ## WebSocket reconciliation handlers (WebSocketService) -/

/-- `NoteUpdateMessage` (types/websocket.ts). -/
structure NoteUpdateMessage where
  note_id : String
  title : Option String := none
  content : Option String := none
  version : Nat
  user_id : String
  operation : OpKind
deriving DecidableEq, Repr

/-- `FolderUpdateMessage` (types/websocket.ts): it carries no version. -/
structure FolderUpdateMessage where
  folder_id : String
  name : Option String := none
  parent_id : Option (Option String) := none
  user_id : String
  operation : OpKind
deriving DecidableEq, Repr

/-- What a push notification handler does to the projection. -/
inductive ProjectionAction where
  | noop
  | refetchNotes
  | removeNoteAction (id : String)
  | refetchFolders
deriving DecidableEq, Repr

/-- `handleNoteUpdate`: ignore the message when its `user_id` is the local
user's id; otherwise create/move refetch the note list (`syncNotes`), delete
removes the note from the projection, and update refetches exactly when the
note is cached with a version strictly below the message's. `localUserId` is
`authStore.user?.id`. -/
def handleNoteUpdate (localUserId : Option String)
    (notes : List (String × Note)) (m : NoteUpdateMessage) :
    ProjectionAction :=
  if some m.user_id = localUserId then ProjectionAction.noop
  else
    match m.operation with
    | OpKind.create => ProjectionAction.refetchNotes
    | OpKind.update =>
      match recordGet notes m.note_id with
      | some currentNote =>
        if currentNote.version < m.version then ProjectionAction.refetchNotes
        else ProjectionAction.noop
      | none => ProjectionAction.noop
    | OpKind.delete => ProjectionAction.removeNoteAction m.note_id
    | OpKind.move => ProjectionAction.refetchNotes

/-- `handleFolderUpdate`: ignore the message when it originates from the
local user; otherwise every operation kind triggers `syncFolders`. -/
def handleFolderUpdate (localUserId : Option String)
    (m : FolderUpdateMessage) : ProjectionAction :=
  if some m.user_id = localUserId then ProjectionAction.noop
  else
    match m.operation with
    | OpKind.create => ProjectionAction.refetchFolders
    | OpKind.update => ProjectionAction.refetchFolders
    | OpKind.delete => ProjectionAction.refetchFolders
    | OpKind.move => ProjectionAction.refetchFolders

/-! ## Concrete example values used by counterexamples and witnesses -/

/-- A caller input for `queueOperation`. -/
def exInputA : QueueOperationInput :=
  { type := OpKind.create
    entityType := EntityKind.note
    entityId := "tmp-1"
    data := { title := some "Draft" }
    userId := "u1" }

/-- A second caller input differing in every caller-controlled field. -/
def exInputB : QueueOperationInput :=
  { type := OpKind.update
    entityType := EntityKind.folder
    entityId := "f-9"
    data := { name := some "Docs" }
    userId := "u2"
    lastError := some "previous" }

/-- An in-flight update operation with no retries yet (claim C1). -/
def opC1 : OfflineOperation :=
  { id := "op_1_aaaaaaaaa"
    type := OpKind.update
    entityType := EntityKind.note
    entityId := "n-1"
    data := { title := some "local title", version := some 3 }
    timestamp := 1
    userId := "u1"
    status := OpStatus.syncing
    retryCount := 0 }

/-- The remote payload attached to the 409 rejection of `opC1`. -/
def remoteC1 : OpData :=
  { title := some "remote title", version := some 4 }

/-- An operation with no retries yet (claim C5 witness). -/
def opC5 : OfflineOperation :=
  { id := "op_2_bbbbbbbbb"
    type := OpKind.update
    entityType := EntityKind.note
    entityId := "n-2"
    data := { title := some "t", version := some 1 }
    timestamp := 2
    userId := "u1"
    status := OpStatus.syncing
    retryCount := 0 }

/-- First of two pending operations targeting the same entity (claim C2). -/
def opA_C2 : OfflineOperation :=
  { id := "op_1_ccccccccc"
    type := OpKind.update
    entityType := EntityKind.note
    entityId := "n-X"
    data := { title := some "A" }
    timestamp := 1
    userId := "u1"
    status := OpStatus.pending
    retryCount := 0 }

/-- Second pending operation targeting the same entity `n-X`,
created later (claim C2). -/
def opB_C2 : OfflineOperation :=
  { id := "op_2_ddddddddd"
    type := OpKind.update
    entityType := EntityKind.note
    entityId := "n-X"
    data := { title := some "B" }
    timestamp := 2
    userId := "u1"
    status := OpStatus.pending
    retryCount := 0 }

/-- A pending operation (claim C6 witness). -/
def opA_C6 : OfflineOperation :=
  { id := "op_3_eeeeeeeee"
    type := OpKind.create
    entityType := EntityKind.note
    entityId := "tmp-6a"
    data := { title := some "first" }
    timestamp := 3
    userId := "u1"
    status := OpStatus.pending
    retryCount := 0 }

/-- A failed-but-retryable operation (claim C6 witness). -/
def opB_C6 : OfflineOperation :=
  { id := "op_4_fffffffff"
    type := OpKind.update
    entityType := EntityKind.note
    entityId := "n-6b"
    data := { title := some "second" }
    timestamp := 4
    userId := "u1"
    status := OpStatus.failed
    retryCount := 1
    lastError := some "network" }

/-- A cached note at version 3 (claim C3). -/
def noteC3 : Note :=
  { id := "n-1"
    title := "T"
    content := "local-old"
    folder_id := none
    user_id := "u1"
    version := 3
    created_at := "2024-01-01"
    updated_at := "2024-01-02" }

/-- An update request editing the content of `noteC3` (claim C3). -/
def dC3 : UpdateNoteRequest :=
  { content := some "local-new", version := 3 }

/-- The remote payload attached to the 409 rejection (claim C3). -/
def remoteC3 : OpData :=
  { content := some "remote-new", version := some 4 }

/-- A store caching `noteC3` (claim C3). -/
def stC3 : ContentState :=
  { notes := [("n-1", noteC3)], folders := [] }

/-- The local pre-mutation snapshot, version 3 (claim C4). -/
def noteLocalC4 : Note :=
  { id := "n-1"
    title := "T"
    content := "local snapshot v3"
    folder_id := none
    user_id := "u1"
    version := 3
    created_at := "2024-01-01"
    updated_at := "2024-01-02" }

/-- The optimistic edit of `noteLocalC4` still visible in the projection
(claim C4). -/
def noteOptC4 : Note :=
  { noteLocalC4 with content := "local edited v3", updated_at := "2024-01-03" }

/-- The remote's current authoritative record, version 4, written by another
actor (claim C4). -/
def noteRemoteC4 : Note :=
  { noteLocalC4 with
    content := "remote current v4"
    version := 4
    updated_at := "2024-01-03" }

/-- The conflicted optimistic operation of the scenario (claim C4). -/
def opC4 : OptimisticOp :=
  { id := "op-c4"
    type := OpKind.update
    entityType := EntityKind.note
    entityId := "n-1"
    timestamp := 1
    originalData := some (OptEntityData.noteData noteLocalC4)
    newData := some (OptEntityData.noteData noteOptC4)
    status := OptStatus.pending }

/-- The store during the conflict: the optimistic edit is visible and the
operation is recorded (claim C4). -/
def stC4 : ContentState :=
  { notes := [("n-1", noteOptC4)], folders := [], optimisticOps := [opC4] }

/-- A create request (claim C7). -/
def dC7 : CreateNoteRequest :=
  { title := "Draft", content := "hello", folder_id := some none }

/-- A locally cached note at version 1 (claim C8). -/
def noteC8 : Note :=
  { id := "n-8"
    title := "T8"
    content := "c8"
    folder_id := none
    user_id := "u-local"
    version := 1
    created_at := "2024-01-01"
    updated_at := "2024-01-02" }

/-- The projection caching `noteC8` (claim C8). -/
def notesC8 : List (String × Note) := [("n-8", noteC8)]

/-- A note update notification from another actor carrying version 2
(claim C8). -/
def msgNoteC8 : NoteUpdateMessage :=
  { note_id := "n-8", version := 2, user_id := "u-other",
    operation := OpKind.update }

/-- A folder update notification from another actor; the message type carries
no version at all, so it cannot encode whether anything changed (claim C8). -/
def msgFolderC8 : FolderUpdateMessage :=
  { folder_id := "f-1", user_id := "u-other", operation := OpKind.update }

/-- The provisional note created offline under temporary id `tmp-1`
(claim C9). -/
def tmpNoteC9 : Note :=
  { id := "tmp-1"
    title := "Draft"
    content := ""
    folder_id := none
    user_id := "current_user"
    version := 1
    created_at := "2024-01-01"
    updated_at := "2024-01-01" }

/-- The authoritative record the server returns for it, with permanent id
`n-42` (claim C9). -/
def createdC9 : Note :=
  { id := "n-42"
    title := "Draft"
    content := ""
    folder_id := none
    user_id := "u1"
    version := 1
    created_at := "2024-01-05"
    updated_at := "2024-01-05" }

/-- The projection holding the provisional note (claim C9). -/
def stC9 : ContentState :=
  { notes := [("tmp-1", tmpNoteC9)], folders := [] }

/-- The offline storage holding the provisional note (claim C9). -/
def storageC9 : List (String × Note) := [("tmp-1", tmpNoteC9)]

/-! ## Lemmas about the Record helpers -/

theorem recordGet_recordSet_self {α : Type} (m : List (String × α))
    (k : String) (v : α) : recordGet (recordSet m k v) k = some v := by
  unfold recordSet
  by_cases h : m.any (fun p => decide (p.1 = k))
  · simp only [h, if_pos]
    induction m with
    | nil => simp at h
    | cons p rest ih =>
      by_cases hp : p.1 = k
      · simp [recordGet, hp]
      · have hrest : rest.any (fun p => decide (p.1 = k)) := by
          simpa [List.any_cons, hp] using h
        simpa [recordGet, hp] using ih hrest
  · simp only [h, if_neg, Bool.not_eq_true]
    induction m with
    | nil => simp [recordGet]
    | cons p rest ih =>
      have hp : ¬ p.1 = k := by
        by_contra hc
        simp [List.any_cons, hc] at h
      have hrest : ¬ rest.any (fun p => decide (p.1 = k)) := by
        intro hc
        simp [List.any_cons, hc] at h
      simpa [recordGet, hp] using ih hrest

theorem recordGet_overwrite_ne {α : Type} (m : List (String × α))
    (k k2 : String) (v : α) (hne : k2 ≠ k) :
    recordGet (m.map (fun p => if p.1 = k then (k, v) else p)) k2
      = recordGet m k2 := by
  induction m with
  | nil => simp
  | cons p rest ih =>
    obtain ⟨a, b⟩ := p
    by_cases hp : a = k
    · subst hp
      simp [recordGet, Ne.symm hne, ih]
    · by_cases hp2 : a = k2
      · simp [recordGet, hp, hp2, hne]
      · simp [recordGet, hp, hp2, ih]

theorem recordGet_append_single_ne {α : Type} (m : List (String × α))
    (k k2 : String) (v : α) (hne : k2 ≠ k) :
    recordGet (m ++ [(k, v)]) k2 = recordGet m k2 := by
  induction m with
  | nil => simp [recordGet, Ne.symm hne]
  | cons p rest ih =>
    by_cases hp2 : p.1 = k2
    · simp [recordGet, hp2]
    · simp [recordGet, hp2, ih]

theorem recordGet_recordSet_ne {α : Type} (m : List (String × α))
    (k k2 : String) (v : α) (hne : k2 ≠ k) :
    recordGet (recordSet m k v) k2 = recordGet m k2 := by
  unfold recordSet
  by_cases h : m.any (fun p => decide (p.1 = k))
  · simp only [h, if_pos]
    exact recordGet_overwrite_ne m k k2 v hne
  · simp only [h, if_neg, Bool.not_eq_true]
    exact recordGet_append_single_ne m k k2 v hne

theorem recordGet_recordRemove_self {α : Type} (m : List (String × α))
    (k : String) : recordGet (recordRemove m k) k = none := by
  unfold recordRemove
  induction m with
  | nil => simp [recordGet]
  | cons p rest ih =>
    by_cases hp : p.1 = k
    · simpa [List.filter, hp] using ih
    · simpa [List.filter, hp, recordGet] using ih

theorem recordGet_recordRemove_ne {α : Type} (m : List (String × α))
    (k k2 : String) (hne : k2 ≠ k) :
    recordGet (recordRemove m k) k2 = recordGet m k2 := by
  unfold recordRemove
  induction m with
  | nil => simp
  | cons p rest ih =>
    obtain ⟨a, b⟩ := p
    by_cases hp : a = k
    · subst hp
      simpa [List.filter_cons, recordGet, Ne.symm hne] using ih
    · by_cases hp2 : a = k2
      · simp [List.filter_cons, recordGet, hp, hp2, hne]
      · simpa [List.filter_cons, recordGet, hp, hp2] using ih

theorem recordGet_recordSet_isSome {α : Type} (m : List (String × α))
    (k : String) (v : α) : (recordGet (recordSet m k v) k).isSome := by
  simp [recordGet_recordSet_self]

/-! ## Lemmas about the dispatch loop and the in-flight counter -/

theorem selectForDispatch_eq (cfg : SyncQueueConfig) (active : Nat)
    (l : List OfflineOperation) :
    selectForDispatch cfg active l
      = (l.filter (fun op => decide (op.retryCount < cfg.maxRetries))).take
          (cfg.maxConcurrentSync - active) := by
  induction l generalizing active with
  | nil => simp [selectForDispatch]
  | cons op rest ih =>
    by_cases hfull : cfg.maxConcurrentSync ≤ active
    · have h0 : cfg.maxConcurrentSync - active = 0 :=
        Nat.sub_eq_zero_of_le hfull
      simp [selectForDispatch, hfull, h0]
    · by_cases hskip : cfg.maxRetries ≤ op.retryCount
      · have hnlt : ¬ op.retryCount < cfg.maxRetries := Nat.not_lt.mpr hskip
        simp [selectForDispatch, hfull, hskip, hnlt, ih active]
      · have hlt : op.retryCount < cfg.maxRetries := Nat.not_le.mp hskip
        have hsub : cfg.maxConcurrentSync - active
            = (cfg.maxConcurrentSync - (active + 1)) + 1 := by omega
        rw [selectForDispatch, if_neg hfull, if_neg hskip,
          List.filter_cons_of_pos (by simpa using hlt), hsub,
          List.take_succ_cons, ih (active + 1)]

theorem selectForDispatch_mem (cfg : SyncQueueConfig) (active : Nat)
    (l : List OfflineOperation) (x : OfflineOperation)
    (hx : x ∈ selectForDispatch cfg active l) :
    x.retryCount < cfg.maxRetries := by
  rw [selectForDispatch_eq] at hx
  have h1 := List.mem_of_mem_take hx
  have h2 := List.of_mem_filter h1
  simpa using h2

theorem runActive_le (cfg : SyncQueueConfig) (events : List SyncEvent) :
    ∀ a : Nat, a ≤ cfg.maxConcurrentSync →
      runActive cfg a events ≤ cfg.maxConcurrentSync := by
  induction events with
  | nil =>
    intro a h
    simpa [runActive] using h
  | cons e rest ih =>
    intro a h
    have hstep : stepActive cfg a e ≤ cfg.maxConcurrentSync := by
      cases e with
      | dispatch =>
        simp only [stepActive]
        split <;> omega
      | complete =>
        simp only [stepActive]
        omega
    simpa [runActive, List.foldl_cons] using ih _ hstep

/-! ## Claim C10: initial state of an enqueued operation -/

/-- Claim C10: every operation enqueued through `queueOperation` enters the
log with status `pending`, retry count `0`, the call-time timestamp, and an
id generated from the clock and a fresh random nonce. The id does not depend
on any caller-supplied field, and within one clock millisecond distinct
nonces yield distinct ids; there is no other way to construct the stored
record, so no operation can be enqueued in any other initial state. -/
theorem queueOperation_initial_state (input : QueueOperationInput)
    (now : Nat) (nonce : String) :
    (queueOperation input now nonce).status = OpStatus.pending ∧
    (queueOperation input now nonce).retryCount = 0 ∧
    (queueOperation input now nonce).timestamp = now ∧
    (queueOperation input now nonce).id = freshOpId now nonce ∧
    (∀ other : QueueOperationInput,
      (queueOperation other now nonce).id
        = (queueOperation input now nonce).id) ∧
    (∀ nonce2 : String, nonce ≠ nonce2 →
      freshOpId now nonce ≠ freshOpId now nonce2) := by
  refine ⟨rfl, rfl, rfl, rfl, fun other => rfl, ?_⟩
  intro nonce2 hne heq
  apply hne
  have h1 := congrArg String.data heq
  rw [freshOpId, freshOpId, String.data_append, String.data_append] at h1
  exact String.ext (List.append_cancel_left h1)

/-- Witness for claim C10 at concrete inputs. -/
theorem queueOperation_initial_state_witness :
    (queueOperation exInputA 5 "abcdefghi").status = OpStatus.pending ∧
    (queueOperation exInputA 5 "abcdefghi").retryCount = 0 ∧
    (queueOperation exInputA 5 "abcdefghi").timestamp = 5 ∧
    (queueOperation exInputA 5 "abcdefghi").id = freshOpId 5 "abcdefghi" ∧
    (queueOperation exInputB 5 "abcdefghi").id
      = (queueOperation exInputA 5 "abcdefghi").id ∧
    freshOpId 5 "abcdefghi" ≠ freshOpId 5 "zzzzzzzzz" := by
  obtain ⟨h1, h2, h3, h4, h5, h6⟩ :=
    queueOperation_initial_state exInputA 5 "abcdefghi"
  exact ⟨h1, h2, h3, h4, h5 exInputB, h6 "zzzzzzzzz" (by decide)⟩

/-! ## Claim C1: what a 409 version conflict does to the operation -/

/-- Claim C1 counterexample: the claim says a version-conflicted operation's
status becomes `conflicted` and it is never auto-retried. On the concrete
operation `opC1` (retryCount 0) whose remote call is rejected with HTTP 409,
`processOperation` schedules an automatic retry drain 5000 ms later and
writes status `pending` back to the log; moreover the operation-log status
type has no `conflicted` member at all, so the claimed status is
unrepresentable. -/
theorem conflict_autoretry_counterexample :
    (processOperation defaultSyncConfig opC1
        (ApiOutcome.err 409 remoteC1 "Conflict")).retryScheduledAfterMs
      = some 5000 ∧
    (processOperation defaultSyncConfig opC1
        (ApiOutcome.err 409 remoteC1 "Conflict")).newStatus
      = OpStatus.pending ∧
    (∀ s : OpStatus, s = OpStatus.pending ∨ s = OpStatus.syncing ∨
      s = OpStatus.synced ∨ s = OpStatus.failed) := by
  refine ⟨by decide, by decide, ?_⟩
  intro s
  cases s
  · exact Or.inl rfl
  · exact Or.inr (Or.inl rfl)
  · exact Or.inr (Or.inr (Or.inl rfl))
  · exact Or.inr (Or.inr (Or.inr rfl))

/-- Claim C1 (amended): a remote rejection with HTTP 409 produces exactly one
Conflict object referencing the operation (its id, its local payload, the
attached remote payload); but instead of a `conflicted` status the operation
is treated like any failure: its retry count is incremented, its status
becomes `failed` once the new count reaches `maxRetries` and otherwise
`pending`, and in the `pending` case an automatic retry drain is scheduled
after `retryDelayMs * newRetryCount`. -/
theorem conflict_single_conflict_then_retried (cfg : SyncQueueConfig)
    (op : OfflineOperation) (d : OpData) (msg : String) :
    (processOperation cfg op (ApiOutcome.err 409 d msg)).raisedConflicts
      = [{ operationId := op.id, localData := op.data, remoteData := d,
           field := "content" }] ∧
    (processOperation cfg op (ApiOutcome.err 409 d msg)).newRetryCount
      = op.retryCount + 1 ∧
    (processOperation cfg op (ApiOutcome.err 409 d msg)).newStatus
      = (if cfg.maxRetries ≤ op.retryCount + 1 then OpStatus.failed
         else OpStatus.pending) ∧
    (processOperation cfg op (ApiOutcome.err 409 d msg)).retryScheduledAfterMs
      = (if cfg.maxRetries ≤ op.retryCount + 1 then none
         else some (cfg.retryDelayMs * (op.retryCount + 1))) := by
  by_cases h : cfg.maxRetries ≤ op.retryCount + 1 <;>
    simp [processOperation, executeOperationResult, handleConflict, h]

/-! ## Claim C5: retry backoff, permanent failure, manual retry/cancel -/

/-- Claim C5: an operation that fails with a retryable (non-409) error has
its retry count incremented; while the new count is below `maxRetries`
(default 3) the status returns to `pending` and a retry drain is scheduled
after `retryDelayMs * newRetryCount`; once the count reaches `maxRetries`
the status becomes `failed` with no retry scheduled, and such operations are
never selected by the automatic drain loop; `retryOperation` resets them to
`pending` with retry count 0 and `cancelOperation`'s `deleteOperation`
removes them from the log. -/
theorem retryable_failure_backoff_policy (cfg : SyncQueueConfig)
    (op : OfflineOperation) (status : Nat) (d : OpData) (msg : String)
    (h409 : status ≠ 409) :
    (processOperation cfg op (ApiOutcome.err status d msg)).newRetryCount
      = op.retryCount + 1 ∧
    (op.retryCount + 1 < cfg.maxRetries →
      (processOperation cfg op (ApiOutcome.err status d msg)).newStatus
          = OpStatus.pending ∧
      (processOperation cfg op
          (ApiOutcome.err status d msg)).retryScheduledAfterMs
        = some (cfg.retryDelayMs * (op.retryCount + 1))) ∧
    (cfg.maxRetries ≤ op.retryCount + 1 →
      (processOperation cfg op (ApiOutcome.err status d msg)).newStatus
          = OpStatus.failed ∧
      (processOperation cfg op
          (ApiOutcome.err status d msg)).retryScheduledAfterMs = none) ∧
    defaultSyncConfig.maxRetries = 3 ∧
    (∀ (active : Nat) (l : List OfflineOperation) (x : OfflineOperation),
      x ∈ selectForDispatch cfg active l → x.retryCount < cfg.maxRetries) ∧
    (retryOperationPatch op).status = OpStatus.pending ∧
    (retryOperationPatch op).retryCount = 0 ∧
    (retryOperationPatch op).lastError = none ∧
    (∀ (log : List OfflineOperation) (x : OfflineOperation),
      x ∈ deleteOperation log op.id → x.id ≠ op.id) := by
  refine ⟨?_, ?_, ?_, rfl, ?_, rfl, rfl, rfl, ?_⟩
  · simp [processOperation, executeOperationResult, h409]
  · intro hlt
    have h : ¬ cfg.maxRetries ≤ op.retryCount + 1 := Nat.not_le.mpr hlt
    constructor <;>
      simp [processOperation, executeOperationResult, h409, h]
  · intro hge
    constructor <;>
      simp [processOperation, executeOperationResult, h409, hge]
  · exact fun active l x hx => selectForDispatch_mem cfg active l x hx
  · intro log x hx
    have := List.of_mem_filter hx
    simpa using this

/-- Witness for claim C5 at concrete inputs (a 500 error on `opC5`). -/
theorem retryable_failure_backoff_policy_witness :
    (500 : Nat) ≠ 409 ∧
    ((processOperation defaultSyncConfig opC5
        (ApiOutcome.err 500 remoteC1 "boom")).newRetryCount
      = opC5.retryCount + 1 ∧
    (opC5.retryCount + 1 < defaultSyncConfig.maxRetries →
      (processOperation defaultSyncConfig opC5
          (ApiOutcome.err 500 remoteC1 "boom")).newStatus
          = OpStatus.pending ∧
      (processOperation defaultSyncConfig opC5
          (ApiOutcome.err 500 remoteC1 "boom")).retryScheduledAfterMs
        = some (defaultSyncConfig.retryDelayMs * (opC5.retryCount + 1))) ∧
    (defaultSyncConfig.maxRetries ≤ opC5.retryCount + 1 →
      (processOperation defaultSyncConfig opC5
          (ApiOutcome.err 500 remoteC1 "boom")).newStatus
          = OpStatus.failed ∧
      (processOperation defaultSyncConfig opC5
          (ApiOutcome.err 500 remoteC1 "boom")).retryScheduledAfterMs
        = none) ∧
    defaultSyncConfig.maxRetries = 3 ∧
    (∀ (active : Nat) (l : List OfflineOperation) (x : OfflineOperation),
      x ∈ selectForDispatch defaultSyncConfig active l →
        x.retryCount < defaultSyncConfig.maxRetries) ∧
    (retryOperationPatch opC5).status = OpStatus.pending ∧
    (retryOperationPatch opC5).retryCount = 0 ∧
    (retryOperationPatch opC5).lastError = none ∧
    (∀ (log : List OfflineOperation) (x : OfflineOperation),
      x ∈ deleteOperation log opC5.id → x.id ≠ opC5.id)) :=
  ⟨by decide,
   retryable_failure_backoff_policy defaultSyncConfig opC5 500 remoteC1
     "boom" (by decide)⟩

/-! ## Claim C6: bounded concurrency, oldest-first selection -/

/-- Claim C6: starting a drain pass with `active` calls already in flight
(`active ≤ maxConcurrentSync`), the pass dispatches at most
`maxConcurrentSync - active` operations, and the dispatched list is exactly
the oldest-first prefix (by creation timestamp) of the retryable operations
in pending ∪ failed; the sort is a permutation of pending ∪ failed and the
dispatched list is timestamp-sorted; the default bound is 3; and along any
interleaving of guarded dispatches and completions the in-flight count never
exceeds `maxConcurrentSync`. -/
theorem concurrency_bound_and_oldest_first (cfg : SyncQueueConfig)
    (active : Nat) (pendingOps failedOps : List OfflineOperation)
    (hactive : active ≤ cfg.maxConcurrentSync) :
    (processPendingOperations cfg true false active
        pendingOps failedOps).length + active ≤ cfg.maxConcurrentSync ∧
    processPendingOperations cfg true false active pendingOps failedOps
      = ((sortOps (pendingOps ++ failedOps)).filter
          (fun op => decide (op.retryCount < cfg.maxRetries))).take
          (cfg.maxConcurrentSync - active) ∧
    (sortOps (pendingOps ++ failedOps)).Perm (pendingOps ++ failedOps) ∧
    List.Pairwise (fun a b => a.timestamp ≤ b.timestamp)
      (processPendingOperations cfg true false active pendingOps failedOps) ∧
    defaultSyncConfig.maxConcurrentSync = 3 ∧
    (∀ events : List SyncEvent,
      runActive cfg 0 events ≤ cfg.maxConcurrentSync) := by
  have hchar : processPendingOperations cfg true false active
      pendingOps failedOps
      = ((sortOps (pendingOps ++ failedOps)).filter
          (fun op => decide (op.retryCount < cfg.maxRetries))).take
          (cfg.maxConcurrentSync - active) := by
    rw [processPendingOperations]
    simp only [Bool.not_true, Bool.false_or, if_false]
    exact selectForDispatch_eq cfg active (sortOps (pendingOps ++ failedOps))
  have hsorted : List.Pairwise (fun a b => opLE a b = true)
      (sortOps (pendingOps ++ failedOps)) := by
    apply List.sorted_mergeSort
    · intro a b c hab hbc
      simp only [opLE, decide_eq_true_eq] at hab hbc ⊢
      omega
    · intro a b
      simp only [opLE, Bool.or_eq_true, decide_eq_true_eq]
      omega
  refine ⟨?_, hchar, List.mergeSort_perm _ _, ?_, rfl, ?_⟩
  · rw [hchar]
    have hlen := List.length_take_le (cfg.maxConcurrentSync - active)
      ((sortOps (pendingOps ++ failedOps)).filter
        (fun op => decide (op.retryCount < cfg.maxRetries)))
    omega
  · rw [hchar]
    have hsub : List.Sublist
        (((sortOps (pendingOps ++ failedOps)).filter
          (fun op => decide (op.retryCount < cfg.maxRetries))).take
          (cfg.maxConcurrentSync - active))
        (sortOps (pendingOps ++ failedOps)) :=
      List.Sublist.trans (List.take_sublist _ _) (List.filter_sublist _)
    exact (List.Pairwise.sublist hsub hsorted).imp
      (fun h => by simpa [opLE] using h)
  · intro events
    exact runActive_le cfg events 0 (Nat.zero_le _)

/-- Witness for claim C6 at concrete inputs: one pending and one
failed-but-retryable operation, drain started with nothing in flight. -/
theorem concurrency_bound_and_oldest_first_witness :
    ((processPendingOperations defaultSyncConfig true false 0
        [opA_C6] [opB_C6]).length + 0 ≤ defaultSyncConfig.maxConcurrentSync ∧
    processPendingOperations defaultSyncConfig true false 0 [opA_C6] [opB_C6]
      = ((sortOps ([opA_C6] ++ [opB_C6])).filter
          (fun op => decide (op.retryCount < defaultSyncConfig.maxRetries))).take
          (defaultSyncConfig.maxConcurrentSync - 0) ∧
    (sortOps ([opA_C6] ++ [opB_C6])).Perm ([opA_C6] ++ [opB_C6]) ∧
    List.Pairwise (fun a b => a.timestamp ≤ b.timestamp)
      (processPendingOperations defaultSyncConfig true false 0
        [opA_C6] [opB_C6]) ∧
    defaultSyncConfig.maxConcurrentSync = 3 ∧
    (∀ events : List SyncEvent,
      runActive defaultSyncConfig 0 events
        ≤ defaultSyncConfig.maxConcurrentSync)) :=
  concurrency_bound_and_oldest_first defaultSyncConfig 0 [opA_C6] [opB_C6]
    (by decide)

/-! ## Claim C2: no per-entity serialization of in-flight operations -/

/-- Claim C2 counterexample: the claim says that while a call for entity X is
in flight no other operation targeting X is dispatched. But a single drain
pass over two pending operations that both target entity `n-X` dispatches
both of them (the second is handed to `processOperation` while the first is
in flight): the dispatch loop never inspects `entityId`. -/
theorem same_entity_parallel_dispatch_counterexample :
    processPendingOperations defaultSyncConfig true false 0
        [opA_C2, opB_C2] [] = [opA_C2, opB_C2] ∧
    opA_C2.entityId = opB_C2.entityId ∧
    opA_C2.id ≠ opB_C2.id := by
  refine ⟨?_, by decide, by decide⟩
  have hs : sortOps ([opA_C2, opB_C2] ++ []) = [opA_C2, opB_C2] := by
    apply List.mergeSort_of_sorted
    decide
  rw [processPendingOperations]
  simp only [Bool.not_true, Bool.false_or, if_false]
  rw [hs]
  decide

/-- Claim C2 (amended): the drain loop selects oldest-first under the
concurrency bound with no per-entity exclusion: any two retryable queued
operations within the bound are dispatched in the same pass — in particular
two operations with the same `entityId` — so per-entity ordering is only the
dispatch order, not an in-flight mutual exclusion. -/
theorem no_per_entity_serialization (cfg : SyncQueueConfig)
    (a b : OfflineOperation) (hts : a.timestamp ≤ b.timestamp)
    (ha : a.retryCount < cfg.maxRetries) (hb : b.retryCount < cfg.maxRetries)
    (hcap : 2 ≤ cfg.maxConcurrentSync) :
    processPendingOperations cfg true false 0 [a, b] [] = [a, b] := by
  have hs : sortOps ([a, b] ++ []) = [a, b] := by
    apply List.mergeSort_of_sorted
    exact List.pairwise_pair.mpr (by simpa [opLE] using hts)
  rw [processPendingOperations]
  simp only [Bool.not_true, Bool.false_or, if_false]
  rw [hs, selectForDispatch_eq]
  rw [List.filter_cons_of_pos (by simpa using ha),
    List.filter_cons_of_pos (by simpa using hb)]
  simp only [List.filter_nil]
  exact List.take_of_length_le (by simpa using hcap)

/-- Witness for the amended claim C2 at concrete inputs: the two same-entity
operations `opA_C2`, `opB_C2` are both dispatched in one pass. -/
theorem no_per_entity_serialization_witness :
    opA_C2.timestamp ≤ opB_C2.timestamp ∧
    opA_C2.retryCount < defaultSyncConfig.maxRetries ∧
    opB_C2.retryCount < defaultSyncConfig.maxRetries ∧
    2 ≤ defaultSyncConfig.maxConcurrentSync ∧
    processPendingOperations defaultSyncConfig true false 0
      [opA_C2, opB_C2] [] = [opA_C2, opB_C2] :=
  ⟨by decide, by decide, by decide, by decide,
   no_per_entity_serialization defaultSyncConfig opA_C2 opB_C2
     (by decide) (by decide) (by decide) (by decide)⟩

/-! ## Lemmas about the content store actions -/

theorem updateNote_get_self (st : ContentState) (id : String) (n : Note)
    (h : (recordGet st.notes id).isSome) :
    recordGet (updateNote st id n).notes id = some n := by
  simp [updateNote, h, recordGet_recordSet_self]

theorem setOptimisticOpError_status (st : ContentState) (opId msg : String) :
    ∀ o ∈ (setOptimisticOpError st opId msg).optimisticOps,
      o.id = opId → o.status = OptStatus.error := by
  intro o ho hid
  simp only [setOptimisticOpError, List.mem_map] at ho
  obtain ⟨o0, _, hmap⟩ := ho
  by_cases h0 : o0.id = opId
  · rw [← hmap]
    simp [h0]
  · exfalso
    rw [← hmap] at hid
    simp [h0] at hid

/-! ## Claim C3: optimistic mutation outcome handling -/

/-- Claim C3 counterexample: the claim says that on a version conflict the
optimistic value remains visible and the operation is marked conflicted. On
the concrete store `stC3` (caching `noteC3`), running `updateNoteOptimistic`
whose API call is rejected with HTTP 409 rolls the projection back to the
snapshot `noteC3` — which differs from the optimistic value — surfaces the
error to the caller, and marks the operation `error`; the optimistic-op
status type has no `conflicted` member at all. -/
theorem conflict_rollback_counterexample :
    recordGet (updateNoteOptimistic stC3 "n-1" dC3 "op-1" 10 "t1"
        (ApiOutcome.err 409 remoteC3 "Version conflict")).1.notes "n-1"
      = some noteC3 ∧
    noteC3 ≠ mergeNoteUpdate noteC3 dC3 "t1" ∧
    (updateNoteOptimistic stC3 "n-1" dC3 "op-1" 10 "t1"
        (ApiOutcome.err 409 remoteC3 "Version conflict")).2
      = Except.error "Version conflict" ∧
    (∀ s : OptStatus, s = OptStatus.pending ∨ s = OptStatus.success ∨
      s = OptStatus.error) := by
  refine ⟨by decide, by decide, rfl, ?_⟩
  intro s
  cases s
  · exact Or.inl rfl
  · exact Or.inr (Or.inl rfl)
  · exact Or.inr (Or.inr rfl)

/-- Claim C3 (amended): for the optimistic note mutations, on success the
projection holds the authoritative server note; on any failure — version
conflicts included, since the catch does not inspect the error status — the
projection is rolled back to the pre-mutation snapshot, the error is
rethrown to the caller, and the optimistic operation is marked `error`
(there is no conflict branch in this path). -/
theorem optimistic_update_replace_or_rollback (st : ContentState)
    (id : String) (d : UpdateNoteRequest) (opId : String) (now : Nat)
    (nowIso : String) (currentNote : Note)
    (h : recordGet st.notes id = some currentNote)
    (hkey : currentNote.id = id) :
    (∀ n : Note,
      (updateNoteOptimistic st id d opId now nowIso (ApiOutcome.ok n)).2
        = Except.ok n ∧
      recordGet (updateNoteOptimistic st id d opId now nowIso
          (ApiOutcome.ok n)).1.notes id = some n) ∧
    (∀ (s : Nat) (dd : OpData) (msg : String),
      (updateNoteOptimistic st id d opId now nowIso
          (ApiOutcome.err s dd msg)).2 = Except.error msg ∧
      recordGet (updateNoteOptimistic st id d opId now nowIso
          (ApiOutcome.err s dd msg)).1.notes id = some currentNote ∧
      (∀ o ∈ (updateNoteOptimistic st id d opId now nowIso
          (ApiOutcome.err s dd msg)).1.optimisticOps,
        o.id = opId → o.status = OptStatus.error)) ∧
    ((deleteNoteOptimistic st id opId now (ApiOutcome.ok ())).2
        = Except.ok () ∧
      recordGet (deleteNoteOptimistic st id opId now
          (ApiOutcome.ok ())).1.notes id = none) ∧
    (∀ (s : Nat) (dd : OpData) (msg : String),
      (deleteNoteOptimistic st id opId now (ApiOutcome.err s dd msg)).2
        = Except.error msg ∧
      recordGet (deleteNoteOptimistic st id opId now
          (ApiOutcome.err s dd msg)).1.notes id = some currentNote) := by
  have h0 : (recordGet st.notes id).isSome := by simp [h]
  refine ⟨?_, ?_, ?_, ?_⟩
  · intro n
    constructor
    · simp [updateNoteOptimistic, h]
    · simp [updateNoteOptimistic, h, updateNote, addOptimisticOp,
        setOptimisticOpStatus, h0, recordGet_recordSet_self]
  · intro s dd msg
    refine ⟨?_, ?_, ?_⟩
    · simp [updateNoteOptimistic, h]
    · simp [updateNoteOptimistic, h, updateNote, addOptimisticOp,
        setOptimisticOpError, h0, recordGet_recordSet_self]
    · intro o ho hid
      have ho2 : o ∈ (setOptimisticOpError
          (updateNote (addOptimisticOp (updateNote st id
            (mergeNoteUpdate currentNote d nowIso))
            { id := opId
              type := OpKind.update
              entityType := EntityKind.note
              entityId := id
              timestamp := 0
              originalData := some (OptEntityData.noteData currentNote)
              newData := some (OptEntityData.noteData
                (mergeNoteUpdate currentNote d nowIso))
              status := OptStatus.pending } now) id currentNote)
          opId msg).optimisticOps := by
        simpa [updateNoteOptimistic, h] using ho
      exact setOptimisticOpError_status _ opId msg o ho2 hid
  · constructor
    · simp [deleteNoteOptimistic, h]
    · simp [deleteNoteOptimistic, h, removeNote, addOptimisticOp,
        setOptimisticOpStatus, recordGet_recordRemove_self]
  · intro s dd msg
    constructor
    · simp [deleteNoteOptimistic, h]
    · simp [deleteNoteOptimistic, h, removeNote, addNote, addOptimisticOp,
        setOptimisticOpError, hkey, recordGet_recordSet_self]

/-- Witness for the amended claim C3 at concrete inputs. -/
theorem optimistic_update_replace_or_rollback_witness :
    recordGet stC3.notes "n-1" = some noteC3 ∧
    noteC3.id = "n-1" ∧
    (updateNoteOptimistic stC3 "n-1" dC3 "op-1" 10 "t1"
        (ApiOutcome.err 500 remoteC3 "boom")).2 = Except.error "boom" ∧
    recordGet (updateNoteOptimistic stC3 "n-1" dC3 "op-1" 10 "t1"
        (ApiOutcome.err 500 remoteC3 "boom")).1.notes "n-1" = some noteC3 := by
  obtain ⟨-, h2, -, -⟩ :=
    optimistic_update_replace_or_rollback stC3 "n-1" dC3 "op-1" 10 "t1"
      noteC3 (by decide) (by decide)
  obtain ⟨h2a, h2b, -⟩ := h2 500 remoteC3 "boom"
  exact ⟨by decide, by decide, h2a, h2b⟩

/-! ## Claim C4: discarding a conflicted operation -/

/-- Claim C4 counterexample: in the spec's own scenario (local snapshot at
version 3, remote advanced to version 4 by another actor), discarding the
conflicted operation rolls the projection back to the operation's stored
`originalData` — the local version-3 snapshot `noteLocalC4` — not to the
remote's current version-4 record `noteRemoteC4`; the remote value is never
consulted by `resolveConflict`. -/
theorem discard_not_remote_counterexample :
    recordGet (resolveConflictSettled stC4 "op-c4"
        ConflictChoice.reject).notes "n-1" = some noteLocalC4 ∧
    noteLocalC4 ≠ noteRemoteC4 ∧
    noteLocalC4.version = 3 ∧
    noteRemoteC4.version = 4 := by
  exact ⟨by decide, by decide, rfl, rfl⟩

/-- Claim C4 (amended): on discard ("reject") the projection is rolled back
to the operation's `originalData` — the locally captured pre-mutation
snapshot, not the remote's current value — and the optimistic operation is
removed from the list once the 1s timer fires; on the sync-queue side,
`cancelOperation` removes the operation entirely from the durable log. -/
theorem discard_restores_local_snapshot (st : ContentState) (opId : String)
    (op : OptimisticOp) (n : Note)
    (hfind : st.optimisticOps.find? (fun o => decide (o.id = opId)) = some op)
    (htype : op.entityType = EntityKind.note)
    (hdata : op.originalData = some (OptEntityData.noteData n))
    (hpres : (recordGet st.notes op.entityId).isSome) :
    recordGet (resolveConflictSettled st opId
        ConflictChoice.reject).notes op.entityId = some n ∧
    (∀ o ∈ (resolveConflictSettled st opId
        ConflictChoice.reject).optimisticOps, o.id ≠ opId) ∧
    (∀ (log : List OfflineOperation) (storageNotes : List (String × Note))
        (storageFolders : List (String × Folder)) (x : OfflineOperation),
      x ∈ (cancelOperation log st storageNotes storageFolders opId).1 →
        x.id ≠ opId) := by
  refine ⟨?_, ?_, ?_⟩
  · simp [resolveConflictSettled, resolveConflict, hfind, hdata, htype,
      removeOptimisticOp, setOptimisticOpError, updateNote, hpres,
      recordGet_recordSet_self]
  · intro o ho
    simp only [resolveConflictSettled, removeOptimisticOp] at ho
    have := List.of_mem_filter ho
    simpa using this
  · intro log storageNotes storageFolders x hx
    simp only [cancelOperation, deleteOperation] at hx
    have := List.of_mem_filter hx
    simpa using this

/-- Witness for the amended claim C4 at the scenario's concrete inputs. -/
theorem discard_restores_local_snapshot_witness :
    recordGet (resolveConflictSettled stC4 "op-c4"
        ConflictChoice.reject).notes opC4.entityId = some noteLocalC4 ∧
    (∀ o ∈ (resolveConflictSettled stC4 "op-c4"
        ConflictChoice.reject).optimisticOps, o.id ≠ "op-c4") ∧
    (∀ (log : List OfflineOperation) (storageNotes : List (String × Note))
        (storageFolders : List (String × Folder)) (x : OfflineOperation),
      x ∈ (cancelOperation log stC4 storageNotes storageFolders "op-c4").1 →
        x.id ≠ "op-c4") :=
  discard_restores_local_snapshot stC4 "op-c4" opC4 noteLocalC4
    (by decide) (by decide) (by decide) (by decide)

/-! ## Claim C7: idempotency key on create calls -/

/-- Claim C7 counterexample: the claim says every create call carries a
client-generated idempotency key. The request built by `api.notes.create`
for the concrete request data `dC7` carries exactly the headers Content-Type
and Authorization and exactly the body keys title/content/folder_id — no
idempotency key under any conventional spelling, and no input through which
one could be supplied. -/
theorem create_request_no_idempotency_key_counterexample :
    hasIdempotencyKey (notesCreateRequest true dC7) = false ∧
    (notesCreateRequest true dC7).headerNames
      = ["Content-Type", "Authorization"] ∧
    (notesCreateRequest true dC7).bodyFields
      = ["title", "content", "folder_id"] := by
  exact ⟨by decide, rfl, rfl⟩

/-- Claim C7 (amended): a create call is a `POST /notes` whose headers are
only Content-Type (plus Authorization when authenticated) and whose body
keys are only title/content/folder_id; no idempotency key is attached
anywhere, and the request is a pure function of the note payload, so a
retried create re-sends an identical request with no deduplication token. -/
theorem create_request_fields (hasToken : Bool) (d : CreateNoteRequest) :
    hasIdempotencyKey (notesCreateRequest hasToken d) = false ∧
    (notesCreateRequest hasToken d).method = "POST" ∧
    (notesCreateRequest hasToken d).path = "/notes" ∧
    (∀ h ∈ (notesCreateRequest hasToken d).headerNames,
      h = "Content-Type" ∨ h = "Authorization") ∧
    (∀ f ∈ (notesCreateRequest hasToken d).bodyFields,
      f = "title" ∨ f = "content" ∨ f = "folder_id") := by
  cases hasToken <;> rcases hf : d.folder_id with _ | _ <;>
    simp [notesCreateRequest, requestHeaderNames, createNoteBodyFields,
      hasIdempotencyKey, hf]

/-- Witness for the amended claim C7 at concrete inputs. -/
theorem create_request_fields_witness :
    hasIdempotencyKey (notesCreateRequest true dC7) = false ∧
    (notesCreateRequest true dC7).method = "POST" ∧
    (notesCreateRequest true dC7).path = "/notes" ∧
    (∀ h ∈ (notesCreateRequest true dC7).headerNames,
      h = "Content-Type" ∨ h = "Authorization") ∧
    (∀ f ∈ (notesCreateRequest true dC7).bodyFields,
      f = "title" ∨ f = "content" ∨ f = "folder_id") :=
  create_request_fields true dC7

/-! ## Claim C8: push-channel notification handling -/

/-- Claim C8 counterexample: the claim says an update notification triggers a
refetch if and only if the locally cached version is strictly smaller than
the notification's version, so duplicate notifications cause no refetch. The
folder handler contradicts this: a folder update notification from another
actor — whose message type carries no version at all, so a re-delivered
duplicate is indistinguishable — always triggers a folder-list refetch. -/
theorem folder_update_always_refetches_counterexample :
    handleFolderUpdate (some "u-local") msgFolderC8
      = ProjectionAction.refetchFolders ∧
    ProjectionAction.refetchFolders ≠ ProjectionAction.noop := by
  exact ⟨rfl, by decide⟩

/-- Claim C8 (amended): notifications from the local actor are ignored by
both handlers. For note notifications from other actors the claim's rules
hold: delete removes the note from the projection, create refetches the
list, and update refetches exactly when the note is cached with a strictly
smaller version (otherwise it is a no-op). Folder notifications from other
actors, however, always trigger a folder-list refetch, for every operation
kind and with no version comparison. -/
theorem push_notification_handling (localUserId : Option String)
    (notes : List (String × Note)) (m : NoteUpdateMessage)
    (mf : FolderUpdateMessage) :
    (some m.user_id = localUserId →
      handleNoteUpdate localUserId notes m = ProjectionAction.noop) ∧
    (some mf.user_id = localUserId →
      handleFolderUpdate localUserId mf = ProjectionAction.noop) ∧
    (some m.user_id ≠ localUserId → m.operation = OpKind.delete →
      handleNoteUpdate localUserId notes m
        = ProjectionAction.removeNoteAction m.note_id) ∧
    (some m.user_id ≠ localUserId → m.operation = OpKind.create →
      handleNoteUpdate localUserId notes m = ProjectionAction.refetchNotes) ∧
    (some m.user_id ≠ localUserId → m.operation = OpKind.update →
      (handleNoteUpdate localUserId notes m = ProjectionAction.refetchNotes ↔
        ∃ n : Note, recordGet notes m.note_id = some n ∧
          n.version < m.version)) ∧
    (some m.user_id ≠ localUserId → m.operation = OpKind.update →
      handleNoteUpdate localUserId notes m = ProjectionAction.refetchNotes ∨
      handleNoteUpdate localUserId notes m = ProjectionAction.noop) ∧
    (some mf.user_id ≠ localUserId →
      handleFolderUpdate localUserId mf = ProjectionAction.refetchFolders) := by
  refine ⟨?_, ?_, ?_, ?_, ?_, ?_, ?_⟩
  · intro hloc
    simp [handleNoteUpdate, hloc]
  · intro hloc
    simp [handleFolderUpdate, hloc]
  · intro hloc hop
    simp [handleNoteUpdate, hloc, hop]
  · intro hloc hop
    simp [handleNoteUpdate, hloc, hop]
  · intro hloc hop
    rcases hg : recordGet notes m.note_id with _ | n
    · simp [handleNoteUpdate, hloc, hop, hg]
    · by_cases hv : n.version < m.version
      · simp [handleNoteUpdate, hloc, hop, hg, hv]
      · simp [handleNoteUpdate, hloc, hop, hg, hv]
  · intro hloc hop
    rcases hg : recordGet notes m.note_id with _ | n
    · simp [handleNoteUpdate, hloc, hop, hg]
    · by_cases hv : n.version < m.version
      · simp [handleNoteUpdate, hloc, hop, hg, hv]
      · simp [handleNoteUpdate, hloc, hop, hg, hv]
  · intro hloc
    cases hop : mf.operation <;> simp [handleFolderUpdate, hloc, hop]

/-- Witness for the amended claim C8 at concrete inputs: an update
notification at version 2 for a note cached at version 1 refetches; a folder
update from another actor refetches unconditionally. -/
theorem push_notification_handling_witness :
    handleNoteUpdate (some "u-local") notesC8 msgNoteC8
      = ProjectionAction.refetchNotes ∧
    handleFolderUpdate (some "u-local") msgFolderC8
      = ProjectionAction.refetchFolders := by
  obtain ⟨-, -, -, -, h5, -, h7⟩ :=
    push_notification_handling (some "u-local") notesC8 msgNoteC8 msgFolderC8
  constructor
  · exact (h5 (by decide) rfl).mpr ⟨noteC8, by decide, by decide⟩
  · exact h7 (by decide)

/-! ## Claim C9: promotion of a provisional entity -/

/-- Claim C9: when the server confirms a queued create, the provisional
record disappears from the projection and from offline storage, the
authoritative record appears under its permanent id in both, and every
other entry is untouched. -/
theorem provisional_promotion (st : ContentState)
    (storage : List (String × Note)) (tempId : String) (created : Note)
    (hne : created.id ≠ tempId) :
    recordGet (confirmCreateNote st storage tempId created).1.notes tempId
      = none ∧
    recordGet (confirmCreateNote st storage tempId created).2 tempId
      = none ∧
    recordGet (confirmCreateNote st storage tempId created).1.notes created.id
      = some created ∧
    recordGet (confirmCreateNote st storage tempId created).2 created.id
      = some created ∧
    (∀ k : String, k ≠ tempId → k ≠ created.id →
      recordGet (confirmCreateNote st storage tempId created).1.notes k
        = recordGet st.notes k ∧
      recordGet (confirmCreateNote st storage tempId created).2 k
        = recordGet storage k) := by
  have htmp : tempId ≠ created.id := Ne.symm hne
  refine ⟨?_, ?_, ?_, ?_, ?_⟩
  · simp [confirmCreateNote, addNote, removeNote,
      recordGet_recordSet_ne _ created.id tempId created htmp,
      recordGet_recordRemove_self]
  · simp [confirmCreateNote,
      recordGet_recordSet_ne _ created.id tempId created htmp,
      recordGet_recordRemove_self]
  · simp [confirmCreateNote, addNote, removeNote, recordGet_recordSet_self]
  · simp [confirmCreateNote, recordGet_recordSet_self]
  · intro k hk1 hk2
    constructor
    · simp [confirmCreateNote, addNote, removeNote,
        recordGet_recordSet_ne _ created.id k created hk2,
        recordGet_recordRemove_ne _ tempId k hk1]
    · simp [confirmCreateNote,
        recordGet_recordSet_ne _ created.id k created hk2,
        recordGet_recordRemove_ne _ tempId k hk1]

/-- Witness for claim C9 at the spec's scenario: provisional `tmp-1`
confirmed as `n-42`. -/
theorem provisional_promotion_witness :
    recordGet (confirmCreateNote stC9 storageC9 "tmp-1" createdC9).1.notes
        "tmp-1" = none ∧
    recordGet (confirmCreateNote stC9 storageC9 "tmp-1" createdC9).2
        "tmp-1" = none ∧
    recordGet (confirmCreateNote stC9 storageC9 "tmp-1" createdC9).1.notes
        createdC9.id = some createdC9 ∧
    recordGet (confirmCreateNote stC9 storageC9 "tmp-1" createdC9).2
        createdC9.id = some createdC9 ∧
    (∀ k : String, k ≠ "tmp-1" → k ≠ createdC9.id →
      recordGet (confirmCreateNote stC9 storageC9 "tmp-1" createdC9).1.notes k
        = recordGet stC9.notes k ∧
      recordGet (confirmCreateNote stC9 storageC9 "tmp-1" createdC9).2 k
        = recordGet storageC9 k) :=
  provisional_promotion stC9 storageC9 "tmp-1" createdC9 (by decide)
